import Mathlib

/-!
# ven: the `POST /chat` browser-automation server (`src/index.js`)

A shallow embedding of the control logic of `src/index.js`:

* JavaScript strings are Lean strings, read as sequences of characters;
* the browser, the remote site and the Turndown library are external: every
  awaited browser call takes its outcome from an environment record, and the
  call itself is logged as an `Event`;
* an `async` function is cut at its `await`s: `chatCheck` is the synchronous
  stretch of the handler from the `ongoingRequests.has` test to the `await` of
  the request promise, `chatSettle` is the stretch that runs once that promise
  has settled; `postChat` chains the stretches for a request served alone;
* a promise is an index into the table `Server.promises`, which records for
  every `sendPrompt` execution started so far how it settles (or that it never
  does).
-/

namespace Ven

/-! ## Strings -/

/-- Substring test on characters: the body of `String.prototype.includes`. -/
def includesChars : List Char → List Char → Bool
  | [], needle => needle.isEmpty
  | c :: cs, needle => needle.isPrefixOf (c :: cs) || includesChars cs needle

/-- The call `s.includes(needle)`. -/
def jsIncludes (s needle : String) : Bool := includesChars s.data needle.data

/-- The call `s.endsWith(suffix)`. -/
def jsEndsWith (s suffix : String) : Bool := suffix.data.isSuffixOf s.data

/-- The call `s.split("/")` on characters: the segments between the slashes, an empty
string giving one empty segment. -/
def splitSlash : List Char → List (List Char)
  | [] => [[]]
  | c :: cs =>
    if c = '/' then [] :: splitSlash cs
    else
      match splitSlash cs with
      | [] => [[c]]
      | seg :: rest => (c :: seg) :: rest

/-- The expression `pathname.split("/").pop()`: the final path segment. -/
def lastSegment (pathname : String) : String :=
  String.mk ((splitSlash pathname.data).getLast?.getD [])

/-- Truthiness of a string value that may be absent: `undefined`, `null` and
the empty string are falsy. -/
def truthy : Option String → Bool
  | none => false
  | some s => !s.data.isEmpty

/-- The code units `String.prototype.trim` strips (WhiteSpace and
LineTerminator of ECMAScript). -/
def isJsSpace (c : Char) : Bool :=
  let n := c.toNat
  n = 9 || n = 10 || n = 11 || n = 12 || n = 13 || n = 32 || n = 160 || n = 5760 ||
  (8192 ≤ n && n ≤ 8202) || n = 8232 || n = 8233 || n = 8239 || n = 8287 ||
  n = 12288 || n = 65279

/-- The call `s.trim()`. -/
def jsTrim (s : String) : String :=
  String.mk ((s.data.dropWhile isJsSpace).reverse.dropWhile isJsSpace).reverse

/-- The loop of `Array.prototype.join`: before every element but the first the
separator is appended, then the element. -/
def jsJoinLoop (sep : String) : List String → Nat → String → String
  | [], _, acc => acc
  | x :: xs, k, acc => jsJoinLoop sep xs (k + 1) ((if 0 < k then acc ++ sep else acc) ++ x)

/-- The call `xs.join(sep)` on an array of strings. -/
def jsJoin (sep : String) (xs : List String) : String := jsJoinLoop sep xs 0 ""

/-! ## Errors, settled promises, JSON -/

/-- A thrown `Error`: its `message` and its `stack`. -/
structure JsError where
  message : String
  stack : String
deriving DecidableEq, Repr

/-- How an awaited promise ends: fulfilled, rejected, or never settled. -/
inductive Settled (α : Type) where
  | resolved (a : α)
  | rejected (e : JsError)
  | pending
deriving DecidableEq, Repr

/-- The object `sendPrompt` returns: `{ response, references }`. -/
structure PromptResult where
  response : String
  references : String
deriving DecidableEq, Repr

/-- A value stored under a key of `ongoingRequests`. The handler stores the
request promise; `cleanupOngoingRequests` reads the value as a number. -/
inductive JsValue where
  | promise (id : Nat)
  | number (n : Int)
deriving DecidableEq, Repr

/-- A field of a JSON body the handler sends. -/
inductive JsonField where
  | str (s : String)
  | num (n : Int)
  | obj (fields : List (String × String))
deriving DecidableEq, Repr

/-- What `res.send` / `res.json` was given. -/
inductive Body where
  | text (s : String)
  | json (fields : List (String × JsonField))
deriving DecidableEq, Repr

/-- An HTTP response: status code and body. -/
structure Response where
  status : Nat
  body : Body
deriving DecidableEq, Repr

/-- Top-level field names of a response body (none for a text body). -/
def Response.keys (r : Response) : List String :=
  match r.body with
  | .text _ => []
  | .json fields => fields.map Prod.fst

/-- Whether the status is a client error, 4xx. -/
def Response.isClientError (r : Response) : Bool := 400 ≤ r.status && r.status < 500

/-- Whether the status is a server error, 5xx. -/
def Response.isServerError (r : Response) : Bool := 500 ≤ r.status && r.status < 600

/-! ## The `ongoingRequests` map -/

/-- A JavaScript `Map` keyed by strings: its entries in insertion order. -/
structure JsMap where
  entries : List (String × JsValue)
deriving DecidableEq, Repr

/-- The empty map, `new Map()`. -/
def JsMap.empty : JsMap := ⟨[]⟩

/-- The call `map.get(key)`; `none` is `undefined`. -/
def JsMap.get (m : JsMap) (key : String) : Option JsValue :=
  (m.entries.find? (fun e => e.1 == key)).map Prod.snd

/-- The call `map.has(key)`. -/
def JsMap.has (m : JsMap) (key : String) : Bool :=
  m.entries.any (fun e => e.1 == key)

/-- The call `map.delete(key)`. -/
def JsMap.delete (m : JsMap) (key : String) : JsMap :=
  ⟨m.entries.filter (fun e => !(e.1 == key))⟩

/-- The call `map.set(key, value)`: an existing entry keeps its place, a new one goes last. -/
def JsMap.set (m : JsMap) (key : String) (value : JsValue) : JsMap :=
  if m.has key then
    ⟨m.entries.map (fun e => if e.1 == key then (key, value) else e)⟩
  else ⟨m.entries ++ [(key, value)]⟩

/-- The conversion `ToNumber` of a stored value: a promise object converts to `NaN` (`none`). -/
def JsValue.toNumber : JsValue → Option Int
  | .promise _ => none
  | .number n => some n

/-- The test `Date.now() - timestamp > staleTimeout`, with `NaN` comparing false. -/
def isStale (now : Int) (timestamp : JsValue) : Bool :=
  match timestamp.toNumber with
  | none => false
  | some t => decide (now - t > 5 * 60 * 1000)

/-- The sweep `cleanupOngoingRequests`, run when `Date.now()` is `now`: every entry of
the map is visited and deleted when it is stale. -/
def cleanupOngoingRequests (now : Int) (ongoingRequests : JsMap) : JsMap :=
  ongoingRequests.entries.foldl
    (fun m e => if isStale now e.2 then m.delete e.1 else m) ongoingRequests

/-! ## The model table -/

/-- The `models` object: public short name, internal identifier. -/
def models : List (String × String) :=
  [("default", "hermes-2-theta-web"),
   ("dogge", "dogge-llama-3-70b"),
   ("llama3", "llama-3.1-405b")]

/-- The value of the property read `models[name]`. -/
inductive ModelValue where
  | str (s : String)
  | inherited (shown : String)
  | undefined
deriving DecidableEq, Repr

/-- The property read `models[name]`: an own property gives its string; otherwise the member
of `Object.prototype` of that name, which is a function or an object (`proto`
lists those members with their text form); otherwise `undefined`. -/
def lookupModel (proto : String → Option String) (name : String) : ModelValue :=
  match models.lookup name with
  | some v => .str v
  | none =>
    match proto name with
    | some shown => .inherited shown
    | none => .undefined

/-- The test `Object.values(models).includes(model)`. -/
def isKnownModel : ModelValue → Bool
  | .str s => (models.map Prod.snd).contains s
  | _ => false

/-- The text a template literal gives for the value. -/
def ModelValue.show : ModelValue → String
  | .str s => s
  | .inherited shown => shown
  | .undefined => "undefined"

/-- The message of the error thrown at line 253. -/
def invalidModelMessage (model : ModelValue) : String :=
  "Invalid model: " ++ model.show ++ ". Must be one of " ++ jsJoin ", " (models.map Prod.snd)

/-! ## Browser events and environment -/

/-- An open tab, by the URL it displays: `url()` is the three parts in a row,
`new URL(url()).pathname` is the middle one. -/
structure Page where
  origin : String
  pathname : String
  rest : String
deriving DecidableEq, Repr

/-- The call `page.url()`. -/
def Page.url (p : Page) : String := p.origin ++ p.pathname ++ p.rest

/-- The scripts run inside the page. -/
inductive Script where
  | modelMatches
  | clearValue
  | readValue
  | extract
deriving DecidableEq, Repr

/-- What the server does to the world, in order: calls on the browser, and the
handler's own calls, map updates and responses. -/
inductive Event where
  | pages
  | bringToFront (url : String)
  | newPage
  | goto (url : String)
  | waitForSelector (selector : String)
  | waitForNavigation
  | waitForFunction (selector : String)
  | click (selector : String)
  | focus (selector : String)
  | type (selector : String) (text : String)
  | evaluate (script : Script)
  | onResponse
  | awaitResponse
  | closeInactiveTab (chatId : String)
  | sendPrompt (prompt : String) (model : ModelValue)
  | mapSet (chatId : String)
  | mapDelete (chatId : String)
  | respond (r : Response)
deriving DecidableEq, Repr

/-- Whether the event is a call on the browser. -/
def Event.isBrowser : Event → Bool
  | .sendPrompt _ _ => false
  | .mapSet _ => false
  | .mapDelete _ => false
  | .respond _ => false
  | _ => true

/-- One awaited browser call: the call is logged; a failure rejects the whole
function, a success hands its value to the rest. -/
def step {α β : Type} (ev : Event) (r : Except JsError α)
    (k : α → List Event × Settled β) : List Event × Settled β :=
  match r with
  | .error e => ([ev], .rejected e)
  | .ok a => (ev :: (k a).1, (k a).2)

def newChatButton : String :=
  "body > div.css-wi1irr > div.css-6o8pp7 > div.css-135z2h5 > div > div > button:nth-child(1)"

def textareaSelector : String := "textarea[placeholder=\"Ask a question...\"]"

def sendButtonSelector : String := "button[data-testid=\"chatInputSubmitButton\"]"

def modelDropdownButtonSelector : String := "#menu-button-\\:rj\\:"

def modelListSelector : String := "#menu-list-\\:rj\\:"

/-- What the browser answers during `findOrCreateChatSession`. -/
structure SessionEnv where
  -- `browser.pages()`
  pages : Except JsError (List Page)
  -- `existingPage.bringToFront()`
  bringToFront : Except JsError Unit
  -- `context.newPage()`
  newPage : Except JsError Unit
  -- `newPage.goto(url, ...)`: what the tab displays once it settled
  goto : String → Except JsError Page
  -- `waitForSelector` of the new-chat button
  newChatVisible : Except JsError Unit
  -- `click` of the new-chat button
  clickNewChat : Except JsError Unit
  -- `waitForNavigation` after the click: what the tab displays then
  afterNewChat : Except JsError Page

/-- The function `findOrCreateChatSession(contextId)`: the browser calls made and the
`{ chatId, page }` returned. -/
def findOrCreateChatSession (env : SessionEnv) (contextId : Option String) :
    List Event × Settled (String × Page) :=
  step .pages env.pages fun pages =>
    let existingPage : Option Page :=
      if truthy contextId then
        pages.find? fun page =>
          jsIncludes page.url "/chat/" && jsEndsWith page.url (contextId.getD "")
      else none
    match existingPage with
    | some page =>
      step (.bringToFront page.url) env.bringToFront fun _ =>
        ([], .resolved (contextId.getD "", page))
    | none =>
      step .newPage env.newPage fun _ =>
        let url :=
          if truthy contextId then "https://venice.ai/chat/" ++ contextId.getD ""
          else "https://venice.ai/chat"
        step (.goto url) (env.goto url) fun shown =>
          let shouldCreateNewChat :=
            !truthy contextId || (truthy contextId && shown.url == "https://venice.ai/chat")
          if shouldCreateNewChat then
            step (.waitForSelector newChatButton) env.newChatVisible fun _ =>
              step (.click newChatButton) env.clickNewChat fun _ =>
                step .waitForNavigation env.afterNewChat fun after =>
                  ([.closeInactiveTab (lastSegment after.pathname)],
                    .resolved (lastSegment after.pathname, after))
          else
            ([.closeInactiveTab (lastSegment shown.pathname)],
              .resolved (lastSegment shown.pathname, shown))

/-! ## `sendPrompt` -/

/-- One citation as extracted: `{ number, text, url }`. -/
structure Reference where
  number : String
  text : String
  url : String
deriving DecidableEq, Repr

/-- An `a` element of the citation block: the text of its `sup` and of its
`.chakra-text` child, when it has one, and its `href`. -/
structure Anchor where
  sup : Option String
  chakraText : Option String
  href : String
deriving DecidableEq, Repr

/-- An `.assistant` element: the `innerHTML` of its `.prose` child and the
anchors of its `.chakra-stack` child, when it has one. -/
structure AssistantDiv where
  prose : Option String
  chakraStack : Option (List Anchor)
deriving DecidableEq, Repr

/-- What the extraction script returns: `{ responseContent, references }`,
`none` standing for `null`. -/
structure Extracted where
  responseContent : Option String
  references : Option (List Reference)
deriving DecidableEq, Repr

/-- The callback of the `map` at lines 398-406: reading `textContent` of a
missing child raises the engine's TypeError. -/
def extractAnchor (typeError : JsError) (a : Anchor) : Except JsError Reference :=
  match a.sup with
  | none => .error typeError
  | some number =>
    match a.chakraText with
    | none => .error typeError
    | some text => .ok ⟨number, text, a.href⟩

/-- The `map` at lines 398-406 over the anchors, in document order. -/
def extractAnchors (typeError : JsError) : List Anchor → Except JsError (List Reference)
  | [] => .ok []
  | a :: rest =>
    match extractAnchor typeError a with
    | .error e => .error e
    | .ok r =>
      match extractAnchors typeError rest with
      | .error e => .error e
      | .ok rs => .ok (r :: rs)

/-- The extraction script of lines 381-413, run on the `.assistant` elements
of the document in document order. -/
def extract (typeError : JsError) (assistantDivs : List AssistantDiv) :
    Except JsError Extracted :=
  match assistantDivs.getLast? with
  | none => .ok ⟨none, none⟩
  | some lastAssistantDiv =>
    let referencesList : Except JsError (List Reference) :=
      match lastAssistantDiv.chakraStack with
      | none => .ok []
      | some anchors => extractAnchors typeError anchors
    match referencesList with
    | .error e => .error e
    | .ok refs => .ok ⟨lastAssistantDiv.prose, some refs⟩

/-- The template literal of line 424. -/
def referenceLine (ref : Reference) : String :=
  ref.number ++ ". [" ++ ref.text ++ "](" ++ ref.url ++ ")"

/-- The expression of lines 423-425: `references.map(...).join("\n")`. -/
def referencesMarkdown (references : List Reference) : String :=
  jsJoin "\n" (references.map referenceLine)

/-- What the page and the libraries answer during one `sendPrompt` execution. -/
structure PromptEnv where
  -- the stack text of an `Error` constructed during the execution
  stack : String
  -- the TypeError the engine raises when a property of `null` is read
  typeError : JsError
  -- first `page.evaluate` of `modelMatches`
  modelSelected : Except JsError Bool
  -- `click` of the model dropdown button
  openDropdown : Except JsError Unit
  -- `waitForSelector` of the model list
  listVisible : Except JsError Unit
  -- `waitForSelector` of the model option
  optionVisible : Except JsError Unit
  -- `click` of the model option
  clickOption : Except JsError Unit
  -- `waitForFunction`: the list is closed
  listClosed : Except JsError Unit
  -- second `page.evaluate` of `modelMatches`
  finalModelCheck : Except JsError Bool
  -- `waitForSelector` of the textarea
  textareaVisible : Except JsError Unit
  -- `page.focus`
  focusTextarea : Except JsError Unit
  -- `page.evaluate` clearing the textarea
  clearTextarea : Except JsError Unit
  -- `page.type`
  typePrompt : Except JsError Unit
  -- `page.$eval` reading the textarea value back
  enteredText : Except JsError String
  -- `waitForSelector` of the enabled send button
  sendEnabled : Except JsError Unit
  -- `click` of the send button
  clickSend : Except JsError Unit
  -- whether the listener ever sees the inference response
  responseArrives : Bool
  -- `waitForSelector(".assistant")`
  assistantAppears : Except JsError Unit
  -- the `.assistant` elements when the extraction script runs
  assistantDivs : List AssistantDiv
  -- `turndownService.turndown`, given a string or `null`
  turndown : Option String → Except JsError String

/-- Lines 418-433: Markdown conversion of the content, rendering of the
references, and the returned object. -/
def transform (env : PromptEnv) (extracted : Extracted) : Settled PromptResult :=
  match env.turndown extracted.responseContent with
  | .error e => .rejected e
  | .ok markdown =>
    match extracted.references with
    | none => .rejected env.typeError
    | some references =>
      .resolved ⟨jsTrim markdown, referencesMarkdown references⟩

/-- Lines 352-433: listener, submit, wait for the reply, extract, transform. -/
def submitAndExtract (env : PromptEnv) : List Event × Settled PromptResult :=
  let rest : List Event × Settled PromptResult :=
    step (.waitForSelector (sendButtonSelector ++ ":not(:disabled)")) env.sendEnabled fun _ =>
      step (.click sendButtonSelector) env.clickSend fun _ =>
        if env.responseArrives then
          let tail : List Event × Settled PromptResult :=
            step (.waitForSelector ".assistant") env.assistantAppears fun _ =>
              step (.evaluate .extract) (extract env.typeError env.assistantDivs) fun extracted =>
                ([], transform env extracted)
          (.awaitResponse :: tail.1, tail.2)
        else ([.awaitResponse], .pending)
  (.onResponse :: rest.1, rest.2)

/-- Lines 324-350, then the rest: the prompt is typed, read back and compared. -/
def enterPrompt (env : PromptEnv) (prompt : String) : List Event × Settled PromptResult :=
  step (.waitForSelector textareaSelector) env.textareaVisible fun _ =>
    step (.focus textareaSelector) env.focusTextarea fun _ =>
      step (.evaluate .clearValue) env.clearTextarea fun _ =>
        step (.type textareaSelector prompt) env.typePrompt fun _ =>
          step (.evaluate .readValue) env.enteredText fun enteredText =>
            if enteredText ≠ prompt then
              ([], .rejected ⟨"Prompt was not correctly entered into the textarea", env.stack⟩)
            else submitAndExtract env

/-- The function `sendPrompt(page, { prompt, model })`: the browser calls made
and how the returned promise settles. The `catch` at lines 434-438 rethrows. -/
def sendPrompt (env : PromptEnv) (prompt : String) (model : ModelValue) :
    List Event × Settled PromptResult :=
  if !isKnownModel model then
    ([], .rejected ⟨invalidModelMessage model, env.stack⟩)
  else
    step (.evaluate .modelMatches) env.modelSelected fun isModelSelected =>
      if !isModelSelected then
        step (.click modelDropdownButtonSelector) env.openDropdown fun _ =>
          step (.waitForSelector modelListSelector) env.listVisible fun _ =>
            step (.waitForSelector
                (modelListSelector ++ " button[value=\"" ++ model.show ++ "\"]"))
              env.optionVisible fun _ =>
              step (.click (modelListSelector ++ " button[value=\"" ++ model.show ++ "\"]"))
                env.clickOption fun _ =>
                step (.waitForFunction modelListSelector) env.listClosed fun _ =>
                  step (.evaluate .modelMatches) env.finalModelCheck fun _ =>
                    enterPrompt env prompt
      else enterPrompt env prompt

/-! ## The `POST /chat` handler -/

/-- The body of a request, fields absent when `none`. -/
structure ChatRequest where
  prompt : Option String
  contextId : Option String
  withRefs : Option Bool
  model : Option String
deriving DecidableEq, Repr

/-- Everything outside the server during one request. -/
structure Env where
  -- members of `Object.prototype`, with their text form
  proto : String → Option String
  session : SessionEnv
  prompt : PromptEnv

/-- The server between two synchronous stretches: the `ongoingRequests` map,
how each `sendPrompt` execution started so far settles (a promise is its index
here), and everything done so far. -/
structure Server where
  ongoingRequests : JsMap
  promises : List (Settled PromptResult)
  events : List Event
deriving DecidableEq, Repr

/-- A handler suspended on the request promise: at line 481 on the stored
value, or at line 500 on the promise it created. -/
inductive Pending where
  | attached (chatId : String) (stored : Option JsValue)
  | started (chatId : String) (withRefs : Bool) (p : Nat)
deriving DecidableEq, Repr

/-- What `await` of a stored value yields. -/
inductive Awaited where
  | result (r : PromptResult)
  | number (n : Int)
  | undefined
deriving DecidableEq, Repr

/-- The `await` of line 481: a promise is awaited, any other value is
yielded as it is. -/
def awaitStored (promises : List (Settled PromptResult)) : Option JsValue → Settled Awaited
  | none => .resolved .undefined
  | some (.number n) => .resolved (.number n)
  | some (.promise p) =>
    match promises.getD p .pending with
    | .resolved r => .resolved (.result r)
    | .rejected e => .rejected e
    | .pending => .pending

/-- Lines 478-500 up to the `await`: a request whose chat already has an entry
waits on the stored value; otherwise `sendPrompt` is called, its promise is
stored under the chat id and awaited. The browser calls of the new execution
follow the registration in the log. -/
def chatCheck (s : Server) (req : ChatRequest) (chatId : String) (env : Env) :
    Server × Pending :=
  if s.ongoingRequests.has chatId then
    (s, .attached chatId (s.ongoingRequests.get chatId))
  else
    let prompt := req.prompt.getD ""
    let model := lookupModel env.proto (req.model.getD "default")
    let run := sendPrompt env.prompt prompt model
    let p := s.promises.length
    ({ ongoingRequests := s.ongoingRequests.set chatId (.promise p)
       promises := s.promises ++ [run.2]
       events := s.events ++ (.sendPrompt prompt model :: .mapSet chatId :: run.1) },
      .started chatId (req.withRefs.getD false) p)

/-- The body of `res.json({ chatId, result })` at line 482. -/
def attachedBody (chatId : String) : Awaited → List (String × JsonField)
  | .result r =>
    [("chatId", .str chatId),
     ("result", .obj [("response", r.response), ("references", r.references)])]
  | .number n => [("chatId", .str chatId), ("result", .num n)]
  | .undefined => [("chatId", .str chatId)]

/-- The body of `res.json({ chatId, ...result })` at lines 501-506. -/
def startedBody (chatId : String) (withRefs : Bool) (fullResult : PromptResult) :
    List (String × JsonField) :=
  if withRefs then
    [("chatId", .str chatId), ("response", .str fullResult.response),
     ("references", .str fullResult.references)]
  else [("chatId", .str chatId), ("response", .str fullResult.response)]

/-- The `catch` of lines 507-514. -/
def chatCatch (s : Server) (chatId : String) (error : JsError) : Server × Option Response :=
  let r : Response :=
    ⟨500, .json [("error", .str error.message), ("stack", .str error.stack)]⟩
  if truthy (some chatId) then
    ({ s with
        ongoingRequests := s.ongoingRequests.delete chatId
        events := s.events ++ [.mapDelete chatId, .respond r] }, some r)
  else ({ s with events := s.events ++ [.respond r] }, some r)

/-- The handler from the point where the awaited promise has settled: lines
481-482 for an attached request, lines 500-506 for the one that started the
execution, the `catch` for a rejection. A promise that never settles leaves the
handler suspended. -/
def chatSettle (s : Server) : Pending → Server × Option Response
  | .attached chatId stored =>
    match awaitStored s.promises stored with
    | .resolved result =>
      let r : Response := ⟨200, .json (attachedBody chatId result)⟩
      ({ s with events := s.events ++ [.respond r] }, some r)
    | .rejected e => chatCatch s chatId e
    | .pending => (s, none)
  | .started chatId withRefs p =>
    match s.promises.getD p .pending with
    | .resolved fullResult =>
      let r : Response := ⟨200, .json (startedBody chatId withRefs fullResult)⟩
      ({ s with
          ongoingRequests := s.ongoingRequests.delete chatId
          events := s.events ++ [.mapDelete chatId, .respond r] }, some r)
    | .rejected e => chatCatch s chatId e
    | .pending => (s, none)

/-- The handler of `POST /chat` for a request served with nothing else running
in between: lines 453-515. -/
def postChat (s : Server) (req : ChatRequest) (env : Env) : Server × Option Response :=
  if !truthy req.prompt then
    let r : Response := ⟨400, .text "No prompt provided"⟩
    ({ s with events := s.events ++ [.respond r] }, some r)
  else
    let session := findOrCreateChatSession env.session req.contextId
    let s1 : Server := { s with events := s.events ++ session.1 }
    match session.2 with
    | .rejected error =>
      let r : Response :=
        ⟨500, .json [("error", .str "Failed to find or create chat session"),
                     ("details", .str error.message), ("stack", .str error.stack)]⟩
      ({ s1 with events := s1.events ++ [.respond r] }, some r)
    | .pending => (s1, none)
    | .resolved (chatId, _) =>
      let checked := chatCheck s1 req chatId env
      chatSettle checked.1 checked.2

/-- The server right after start: no ongoing request, nothing done yet. -/
def Server.initial : Server := ⟨JsMap.empty, [], []⟩

/-- Requests arriving one after the other, each with the chat id its session
resolved to, each run up to its `await` of the request promise; the handlers
left suspended are returned in arrival order. -/
def chatCheckAll (s : Server) : List (ChatRequest × String × Env) → Server × List Pending
  | [] => (s, [])
  | (req, chatId, env) :: rest =>
    let checked := chatCheck s req chatId env
    let later := chatCheckAll checked.1 rest
    (later.1, checked.2 :: later.2)

/-! ## The specification's wording -/

/-- The claim's wording of one line, character by character: the number, a
dot and a blank, the text between square brackets, the URL between round
brackets. -/
def numberedLink (ref : Reference) : String :=
  String.mk (ref.number.data ++ ['.', ' ', '['] ++ ref.text.data ++ [']', '(']
    ++ ref.url.data ++ [')'])

/-- The claim's wording of the references string: the lines of the references
in order, a single newline between two lines and none after the last. -/
def referenceLines : List Reference → String
  | [] => ""
  | ref :: rest =>
    match rest with
    | [] => numberedLink ref
    | _ :: _ => numberedLink ref ++ "\n" ++ referenceLines rest

/-! ## Test doubles -/

/-- A browser with one open tab on conversation `abc`; a new tab lands on the
chat root and the new-chat button leads to conversation `n1`. -/
def demoSession : SessionEnv where
  pages := .ok [⟨"https://venice.ai", "/chat/abc", ""⟩]
  bringToFront := .ok ()
  newPage := .ok ()
  goto := fun _ => .ok ⟨"https://venice.ai", "/chat", ""⟩
  newChatVisible := .ok ()
  clickNewChat := .ok ()
  afterNewChat := .ok ⟨"https://venice.ai", "/chat/n1", ""⟩

/-- A browser with no tab where the new-chat button leaves the tab on a URL
whose path ends in a slash. -/
def slashSession : SessionEnv where
  pages := .ok []
  bringToFront := .ok ()
  newPage := .ok ()
  goto := fun _ => .ok ⟨"https://venice.ai", "/chat", ""⟩
  newChatVisible := .ok ()
  clickNewChat := .ok ()
  afterNewChat := .ok ⟨"https://venice.ai", "/chat/", ""⟩

/-- A page on which every step succeeds: the wanted model is selected, the
textarea holds `hi` after typing, and the last assistant message is
`<p>Hi</p>` with one citation. Turndown is doubled by a function that renders
that message and rejects `null`. -/
def demoPage : PromptEnv where
  stack := "Error: at sendPrompt"
  typeError := ⟨"Cannot read properties of null", "TypeError: at sendPrompt"⟩
  modelSelected := .ok true
  openDropdown := .ok ()
  listVisible := .ok ()
  optionVisible := .ok ()
  clickOption := .ok ()
  listClosed := .ok ()
  finalModelCheck := .ok true
  textareaVisible := .ok ()
  focusTextarea := .ok ()
  clearTextarea := .ok ()
  typePrompt := .ok ()
  enteredText := .ok "hi"
  sendEnabled := .ok ()
  clickSend := .ok ()
  responseArrives := true
  assistantAppears := .ok ()
  assistantDivs := [⟨some "<p>Hi</p>", some [⟨some "1", some "Doc", "http://x"⟩]⟩]
  turndown := fun content =>
    match content with
    | some _ => .ok "Hi"
    | none => .error ⟨"null is not a string, or an element/document/fragment node.", "TypeError"⟩

/-- The members of `Object.prototype` the doubles know: `constructor`. -/
def demoProto (name : String) : Option String :=
  if name = "constructor" then some "function Object() \x7b [native code] \x7d" else none

/-- The demo browser with the demo page. -/
def demoEnv : Env := ⟨demoProto, demoSession, demoPage⟩

/-- The demo page behind the browser whose new chat has an empty last path segment. -/
def slashEnv : Env := ⟨demoProto, slashSession, demoPage⟩

/-- A request with prompt `hi` and nothing else. -/
def hiRequest : ChatRequest := ⟨some "hi", none, none, none⟩

/-- A request with prompt `hi` for the model name `bogus`. -/
def bogusRequest : ChatRequest := ⟨some "hi", none, none, some "bogus"⟩

/-- A request with prompt `hi` for the open conversation `abc`. -/
def abcRequest : ChatRequest := ⟨some "hi", some "abc", none, none⟩

/-! ## Lemmas -/

theorem jsJoinLoop_acc (sep : String) (xs : List String) (k : Nat) (acc : String) :
    jsJoinLoop sep xs (k + 1) acc = acc ++ jsJoinLoop sep xs 1 "" := by
  induction xs generalizing k acc with
  | nil => simp [jsJoinLoop]
  | cons x xs ih =>
    simp only [jsJoinLoop, Nat.zero_lt_succ, if_true]
    rw [ih (k + 1), ih 1 (("" ++ sep) ++ x)]
    simp [String.append_assoc]

theorem jsJoin_cons_cons (sep x y : String) (rest : List String) :
    jsJoin sep (x :: y :: rest) = x ++ sep ++ jsJoin sep (y :: rest) := by
  simp only [jsJoin, jsJoinLoop, Nat.lt_irrefl, if_false, Nat.zero_lt_succ, if_true]
  rw [jsJoinLoop_acc sep rest 1, jsJoinLoop_acc sep rest 0 ("" ++ y)]
  simp [String.append_assoc]

theorem referenceLine_eq_numberedLink (ref : Reference) :
    referenceLine ref = numberedLink ref := by
  apply String.ext
  simp [referenceLine, numberedLink, String.data_append]

theorem referencesMarkdown_eq_lines (refs : List Reference) :
    referencesMarkdown refs = referenceLines refs := by
  induction refs with
  | nil => rfl
  | cons r rest ih =>
    cases rest with
    | nil =>
      simp [referencesMarkdown, referenceLines, jsJoin, jsJoinLoop,
        referenceLine_eq_numberedLink]
    | cons r2 rest2 =>
      simp only [referencesMarkdown, List.map_cons, referenceLines] at ih ⊢
      rw [jsJoin_cons_cons, ih, referenceLine_eq_numberedLink]

theorem step_snd_resolved {α β : Type} (ev : Event) (r : Except JsError α)
    (k : α → List Event × Settled β) (y : β) :
    (step ev r k).2 = .resolved y ↔ ∃ a, r = .ok a ∧ (k a).2 = .resolved y := by
  cases r with
  | error e => simp [step]
  | ok a => simp [step]

theorem step_fst_mem {α β : Type} (ev : Event) (r : Except JsError α)
    (k : α → List Event × Settled β) (x : Event) :
    x ∈ (step ev r k).1 ↔ x = ev ∨ ∃ a, r = .ok a ∧ x ∈ (k a).1 := by
  cases r with
  | error e => simp [step]
  | ok a => simp [step]

theorem transform_references (env : PromptEnv) (x : Extracted) (r : PromptResult)
    (h : transform env x = .resolved r) :
    ∃ refs, x.references = some refs ∧ r.references = referencesMarkdown refs := by
  unfold transform at h
  split at h
  · cases h
  · split at h
    · cases h
    · rename_i refs hrefs
      injection h with h
      exact ⟨refs, hrefs, by rw [← h]⟩

theorem sendPrompt_references (env : PromptEnv) (prompt : String) (model : ModelValue)
    (r : PromptResult) (h : (sendPrompt env prompt model).2 = .resolved r) :
    ∃ x refs, extract env.typeError env.assistantDivs = .ok x ∧ x.references = some refs ∧
      r.references = referencesMarkdown refs := by
  have key : (submitAndExtract env).2 = .resolved r →
      ∃ x refs, extract env.typeError env.assistantDivs = .ok x ∧ x.references = some refs ∧
        r.references = referencesMarkdown refs := by
    intro h
    simp only [submitAndExtract, step_snd_resolved] at h
    obtain ⟨_, _, _, _, h⟩ := h
    split at h
    · simp only [step_snd_resolved] at h
      obtain ⟨_, _, x, hx, h⟩ := h
      obtain ⟨refs, h1, h2⟩ := transform_references env x r h
      exact ⟨x, refs, hx, h1, h2⟩
    · cases h
  have key2 : (enterPrompt env prompt).2 = .resolved r →
      ∃ x refs, extract env.typeError env.assistantDivs = .ok x ∧ x.references = some refs ∧
        r.references = referencesMarkdown refs := by
    intro h
    simp only [enterPrompt, step_snd_resolved] at h
    obtain ⟨_, _, _, _, _, _, _, _, v, _, h⟩ := h
    split at h
    · cases h
    · exact key h
  unfold sendPrompt at h
  split at h
  · cases h
  · simp only [step_snd_resolved] at h
    obtain ⟨b, _, h⟩ := h
    split at h
    · simp only [step_snd_resolved] at h
      obtain ⟨_, _, _, _, _, _, _, _, _, _, _, _, h⟩ := h
      exact key2 h
    · exact key2 h

theorem sendButton_ne_dropdown : sendButtonSelector ≠ modelDropdownButtonSelector := by decide

theorem sendButton_ne_option (shown : String) :
    sendButtonSelector ≠ modelListSelector ++ " button[value=\"" ++ shown ++ "\"]" := by
  intro h
  have := congrArg (fun s => s.data.head?) h
  simp [sendButtonSelector, modelListSelector, String.data_append] at this

theorem enterPrompt_mismatch (env : PromptEnv) (prompt v : String)
    (hv : env.enteredText = .ok v) (hne : v ≠ prompt)
    (hread : Event.evaluate .readValue ∈ (enterPrompt env prompt).1) :
    (enterPrompt env prompt).2
      = .rejected ⟨"Prompt was not correctly entered into the textarea", env.stack⟩ := by
  simp only [enterPrompt, step_fst_mem] at hread
  simp at hread
  obtain ⟨⟨_, h1⟩, ⟨_, h2⟩, ⟨_, h3⟩, ⟨_, h4⟩⟩ := hread
  simp [enterPrompt, step, h1, h2, h3, h4, hv, hne]

theorem enterPrompt_no_submit (env : PromptEnv) (prompt : String)
    (h : env.enteredText ≠ .ok prompt) :
    Event.onResponse ∉ (enterPrompt env prompt).1 ∧
    Event.click sendButtonSelector ∉ (enterPrompt env prompt).1 := by
  simp only [enterPrompt, step_fst_mem]
  constructor
  · simp
    intro _ _ _ _ _ _ _ _ v hv
    have : v ≠ prompt := by rintro rfl; exact h hv
    simp [this]
  · simp
    intro _ _ _ _ _ _ _ _ v hv
    have : v ≠ prompt := by rintro rfl; exact h hv
    simp [this]

/-- The calls before the textarea is touched: the model check and, when the
model has to be changed, the dropdown. After them comes `enterPrompt`. -/
theorem sendPrompt_mem (env : PromptEnv) (prompt : String) (model : ModelValue) (x : Event)
    (h : x ∈ (sendPrompt env prompt model).1) :
    x ∈ [Event.evaluate .modelMatches, .click modelDropdownButtonSelector,
      .waitForSelector modelListSelector,
      .waitForSelector (modelListSelector ++ " button[value=\"" ++ model.show ++ "\"]"),
      .click (modelListSelector ++ " button[value=\"" ++ model.show ++ "\"]"),
      .waitForFunction modelListSelector] ∨
    (isKnownModel model = true ∧ x ∈ (enterPrompt env prompt).1 ∧
      (sendPrompt env prompt model).2 = (enterPrompt env prompt).2) := by
  unfold sendPrompt at h ⊢
  split at h
  · simp at h
  · rename_i hk
    simp only [hk, if_false]
    simp at hk
    cases hb : env.modelSelected with
    | error e => simp [step, hb] at h; simp [h]
    | ok b =>
      cases b with
      | true =>
        simp [step, hb] at h ⊢
        rcases h with h | h
        · simp [h]
        · exact Or.inr ⟨hk, h⟩
      | false =>
        rw [hb] at h
        rw [step_fst_mem] at h
        rcases h with h | ⟨b, hb2, h⟩
        · simp [h]
        injection hb2 with hb2
        subst hb2
        simp only [Bool.not_false, if_true, step_fst_mem] at h
        rcases h with h | ⟨_, h1, h⟩
        · simp [h]
        rcases h with h | ⟨_, h2, h⟩
        · simp [h]
        rcases h with h | ⟨_, h3, h⟩
        · simp [h]
        rcases h with h | ⟨_, h4, h⟩
        · simp [h]
        rcases h with h | ⟨_, h5, h⟩
        · simp [h]
        rcases h with h | ⟨_, h6, h⟩
        · simp [h]
        right
        simp [step, h1, h2, h3, h4, h5, h6, hk, h]


theorem truthy_some (s : String) : truthy (some s) = true ↔ s ≠ "" := by
  cases s with
  | mk l =>
    cases l with
    | nil => simp [truthy]
    | cons c cs =>
      simp [truthy]
      intro h
      have := congrArg String.data h
      simp at this

theorem JsMap.has_delete_self (m : JsMap) (k : String) : (m.delete k).has k = false := by
  simp [JsMap.delete, JsMap.has]

theorem find_filter_ne (entries : List (String × JsValue)) (k c : String) (h : c ≠ k) :
    (entries.filter (fun e => !(e.1 == k))).find? (fun e => e.1 == c)
      = entries.find? (fun e => e.1 == c) := by
  induction entries with
  | nil => rfl
  | cons e rest ih =>
    by_cases hk : e.1 = k
    · have hc : ¬ e.1 = c := by rw [hk]; exact fun h2 => h h2.symm
      have hk2 : (e.1 == k) = true := by simpa using hk
      have hc2 : (e.1 == c) = false := by simpa using hc
      simp only [List.filter_cons, List.find?_cons, hk2, hc2, Bool.not_true]
      exact ih
    · have hk2 : (e.1 == k) = false := by simpa using hk
      by_cases hc : e.1 = c
      · have hc2 : (e.1 == c) = true := by simpa using hc
        simp [List.filter_cons, List.find?_cons, hk2, hc2]
      · have hc2 : (e.1 == c) = false := by simpa using hc
        simp only [List.filter_cons, List.find?_cons, hk2, hc2, Bool.not_false, if_true]
        exact ih

theorem JsMap.get_delete_of_ne (m : JsMap) (k c : String) (h : c ≠ k) :
    (m.delete k).get c = m.get c := by
  simp only [JsMap.delete, JsMap.get, find_filter_ne m.entries k c h]

theorem JsMap.get_of_has (m : JsMap) (k : String) (h : m.has k = true) :
    ∃ v, m.get k = some v := by
  cases m with
  | mk entries =>
    simp only [JsMap.has, List.any_eq_true] at h
    obtain ⟨e, he, hk⟩ := h
    simp only [JsMap.get]
    cases hf : entries.find? (fun e => e.1 == k) with
    | none =>
      rw [List.find?_eq_none] at hf
      exact absurd hk (hf e he)
    | some x => exact ⟨x.2, rfl⟩

theorem lookupModel_unknown (proto : String → Option String) (name : String)
    (h : name ∉ models.map Prod.fst) : isKnownModel (lookupModel proto name) = false := by
  simp [models] at h
  obtain ⟨h1, h2, h3⟩ := h
  have e1 : (name == "default") = false := by simpa using h1
  have e2 : (name == "dogge") = false := by simpa using h2
  have e3 : (name == "llama3") = false := by simpa using h3
  have hl : models.lookup name = none := by
    simp only [models, List.lookup, e1, e2, e3]
  unfold lookupModel
  rw [hl]
  cases proto name <;> rfl

theorem sendPrompt_unknown (env : PromptEnv) (prompt : String) (model : ModelValue)
    (h : isKnownModel model = false) :
    sendPrompt env prompt model = ([], .rejected ⟨invalidModelMessage model, env.stack⟩) := by
  simp [sendPrompt, h]


theorem enterPrompt_reach_extract (env : PromptEnv) (prompt : String)
    (h : Event.evaluate .extract ∈ (enterPrompt env prompt).1) :
    (enterPrompt env prompt).2
      = match extract env.typeError env.assistantDivs with
        | .error e => .rejected e
        | .ok x => transform env x := by
  simp only [enterPrompt, step_fst_mem] at h
  simp at h
  obtain ⟨⟨_, h1⟩, ⟨_, h2⟩, ⟨_, h3⟩, ⟨_, h4⟩, v, h5, h⟩ := h
  by_cases hv : v = prompt
  · subst hv
    simp only [if_true, submitAndExtract, List.mem_cons, step_fst_mem] at h
    simp at h
    obtain ⟨⟨_, h6⟩, ⟨_, h7⟩, h⟩ := h
    by_cases hr : env.responseArrives = true
    · simp only [hr, if_true, List.mem_cons, step_fst_mem] at h
      simp at h
      obtain ⟨_, h8⟩ := h
      simp only [enterPrompt, submitAndExtract, step, h1, h2, h3, h4, h5, h6, h7, h8, hr,
        ne_eq, not_true_eq_false, if_false, if_true]
      cases extract env.typeError env.assistantDivs <;> rfl
    · simp [hr] at h
  · simp [hv] at h

theorem sendPrompt_reach_extract (env : PromptEnv) (prompt : String) (model : ModelValue)
    (h : Event.evaluate .extract ∈ (sendPrompt env prompt model).1) :
    (sendPrompt env prompt model).2
      = match extract env.typeError env.assistantDivs with
        | .error e => .rejected e
        | .ok x => transform env x := by
  rcases sendPrompt_mem env prompt model _ h with hpre | ⟨_, hin, heq⟩
  · simp at hpre
  · rw [heq]
    exact enterPrompt_reach_extract env prompt hin

theorem chatCheck_attached (s : Server) (req : ChatRequest) (chatId : String) (env : Env)
    (h : s.ongoingRequests.has chatId = true) :
    chatCheck s req chatId env = (s, .attached chatId (s.ongoingRequests.get chatId)) := by
  simp [chatCheck, h]

theorem chatCheckAll_attached (s : Server) (chatId : String)
    (h : s.ongoingRequests.has chatId = true)
    (arrivals : List (ChatRequest × String × Env)) (hall : ∀ a ∈ arrivals, a.2.1 = chatId) :
    chatCheckAll s arrivals
      = (s, arrivals.map fun _ => Pending.attached chatId (s.ongoingRequests.get chatId)) := by
  induction arrivals with
  | nil => rfl
  | cons a rest ih =>
    obtain ⟨req, c, env⟩ := a
    have hc : c = chatId := hall (req, c, env) (List.mem_cons_self _ _)
    subst hc
    have ih2 := ih (fun a ha => hall a (List.mem_cons_of_mem _ ha))
    simp only [chatCheckAll, chatCheck_attached s req c env h, ih2, List.map_cons]

/-- What holds of the attach path of `POST /chat`. When the chat id a
request resolved to has an entry in `ongoingRequests` at the check of line
479, the handler changes nothing (no `sendPrompt` call, no new promise, no
event) and suspends on the stored value; any number of such requests for the
chat leave the server as it was, all suspended on that same value, so the one
execution in flight stays the only one. Once the stored promise `p` has
settled, in whatever state `t` the server then is: a fulfilment with `r` is
answered 200 with `r` whole under the field `result`, `r` being the value the
handler that started the execution takes its `response` (and `references`)
from; a rejection with `e` is answered by the attached handler and by the
starting handler with the same 500 body built from `e`. -/
theorem single_flight_attach (s : Server) (chatId : String)
    (h : s.ongoingRequests.has chatId = true) :
    (∃ v, s.ongoingRequests.get chatId = some v) ∧
    (∀ req env,
      chatCheck s req chatId env = (s, .attached chatId (s.ongoingRequests.get chatId))) ∧
    (∀ arrivals : List (ChatRequest × String × Env), (∀ a ∈ arrivals, a.2.1 = chatId) →
      chatCheckAll s arrivals
        = (s, arrivals.map fun _ => Pending.attached chatId (s.ongoingRequests.get chatId))) ∧
    (∀ (t : Server) (p : Nat) (r : PromptResult), t.promises.getD p .pending = .resolved r →
      (chatSettle t (.attached chatId (some (.promise p)))).2
        = some ⟨200, .json [("chatId", .str chatId),
            ("result", .obj [("response", r.response), ("references", r.references)])]⟩ ∧
      ∀ w, (chatSettle t (.started chatId w p)).2
        = some ⟨200, .json (startedBody chatId w r)⟩) ∧
    (∀ (t : Server) (p : Nat) (e : JsError), t.promises.getD p .pending = .rejected e →
      (chatSettle t (.attached chatId (some (.promise p)))).2
        = some ⟨500, .json [("error", .str e.message), ("stack", .str e.stack)]⟩ ∧
      ∀ w, (chatSettle t (.started chatId w p)).2
        = some ⟨500, .json [("error", .str e.message), ("stack", .str e.stack)]⟩) := by
  refine ⟨JsMap.get_of_has _ _ h, fun req env => chatCheck_attached s req chatId env h,
    chatCheckAll_attached s chatId h, ?_, ?_⟩
  · intro t p r hr
    refine ⟨?_, fun w => ?_⟩
    · simp only [chatSettle, awaitStored, hr, attachedBody]
    · simp only [chatSettle, hr]
  · intro t p e he
    refine ⟨?_, fun w => ?_⟩
    · simp only [chatSettle, awaitStored, he, chatCatch]
      split <;> rfl
    · simp only [chatSettle, he, chatCatch]
      split <;> rfl


/-- The attach path at a second request for conversation `abc` while the
first is registered. -/
theorem single_flight_attach_witness :
    chatCheck (chatCheck Server.initial abcRequest "abc" demoEnv).1 hiRequest "abc" demoEnv
      = ((chatCheck Server.initial abcRequest "abc" demoEnv).1,
          .attached "abc"
            ((chatCheck Server.initial abcRequest "abc" demoEnv).1.ongoingRequests.get "abc")) :=
  (single_flight_attach (chatCheck Server.initial abcRequest "abc" demoEnv).1 "abc"
    (by decide)).2.1 hiRequest demoEnv

/-- C1, the code at the failing input: while the execution for conversation
`abc` is registered, a second request for `abc` starts no second execution
(the promise table keeps its one entry) and is answered with the result nested
under `result`, while the request that started the execution is answered with
`chatId` and `response` at top level: the two callers do not receive the same
response. For every chat id, every `withRefs` of the starting request and
every result the execution fulfils with, the body line 482 sends differs from
the body lines 501-506 send. -/
theorem attached_response_differs_from_starter (chatId : String) (withRefs : Bool)
    (r : PromptResult) :
    (postChat (chatCheck Server.initial abcRequest "abc" demoEnv).1 abcRequest demoEnv).2
      = some ⟨200, .json [("chatId", .str "abc"),
          ("result", .obj [("response", "Hi"), ("references", "1. [Doc](http://x)")])]⟩ ∧
    (chatSettle (chatCheck Server.initial abcRequest "abc" demoEnv).1
      (chatCheck Server.initial abcRequest "abc" demoEnv).2).2
      = some ⟨200, .json [("chatId", .str "abc"), ("response", .str "Hi")]⟩ ∧
    (postChat (chatCheck Server.initial abcRequest "abc" demoEnv).1 abcRequest
      demoEnv).1.promises.length = 1 ∧
    ((postChat (chatCheck Server.initial abcRequest "abc" demoEnv).1 abcRequest demoEnv).2
      != (chatSettle (chatCheck Server.initial abcRequest "abc" demoEnv).1
          (chatCheck Server.initial abcRequest "abc" demoEnv).2).2) = true ∧
    (attachedBody chatId (.result r) != startedBody chatId withRefs r) = true := by
  refine ⟨by decide, by decide, by decide, by decide, ?_⟩
  cases withRefs <;> simp [attachedBody, startedBody]

/-- C2, the code at the failing input: a new chat whose URL path ends in a
slash gets the empty chat id; the execution fails, the handler answers 500,
and the entry under the empty id is still in `ongoingRequests`, so the next
request for it attaches to the rejected promise instead of starting an
execution. When the execution for the same empty id succeeds, the entry is
removed. -/
theorem empty_chat_id_keeps_slot :
    (postChat Server.initial bogusRequest slashEnv).2.map Response.status = some 500 ∧
    (postChat Server.initial bogusRequest slashEnv).1.ongoingRequests.has "" = true ∧
    (chatCheck (postChat Server.initial bogusRequest slashEnv).1 hiRequest "" slashEnv)
      = ((postChat Server.initial bogusRequest slashEnv).1,
          .attached "" (some (.promise 0))) ∧
    (postChat Server.initial hiRequest slashEnv).2.map Response.status = some 200 ∧
    (postChat Server.initial hiRequest slashEnv).1.ongoingRequests.has "" = false := by
  decide

/-- Where the slot is released: once the promise `p` the handler registered
for a chat id has settled, by a fulfilment for any chat id, by a rejection for a non-empty
chat id, the handler deletes the entry of that chat id and then responds: the
map is the old one with that entry deleted, so it holds no entry for the chat
id and every other key reads as before, the deletion is logged right before
the response, and a request for the same chat id that follows finds no entry
and starts a new `sendPrompt` execution, registered under a fresh promise. -/
theorem slot_release (s : Server) (chatId : String) (withRefs : Bool) (p : Nat)
    (hdone : (∃ r, s.promises.getD p .pending = .resolved r) ∨
      (chatId ≠ "" ∧ ∃ e, s.promises.getD p .pending = .rejected e)) :
    ∃ r,
      chatSettle s (.started chatId withRefs p)
        = (⟨s.ongoingRequests.delete chatId, s.promises,
            s.events ++ [.mapDelete chatId, .respond r]⟩, some r) ∧
      (s.ongoingRequests.delete chatId).has chatId = false ∧
      (∀ c, c ≠ chatId → (s.ongoingRequests.delete chatId).get c = s.ongoingRequests.get c) ∧
      ∀ (req : ChatRequest) (env : Env),
        (chatCheck (chatSettle s (.started chatId withRefs p)).1 req chatId env).2
          = .started chatId (req.withRefs.getD false) s.promises.length ∧
        (chatCheck (chatSettle s (.started chatId withRefs p)).1 req chatId env).1.promises
          = s.promises ++ [(sendPrompt env.prompt (req.prompt.getD "")
              (lookupModel env.proto (req.model.getD "default"))).2] ∧
        Event.sendPrompt (req.prompt.getD "") (lookupModel env.proto (req.model.getD "default"))
          ∈ (chatCheck (chatSettle s (.started chatId withRefs p)).1 req chatId env).1.events := by
  have hrest : ∀ (t : Server), t.promises = s.promises →
      t.ongoingRequests = s.ongoingRequests.delete chatId →
      ∀ (req : ChatRequest) (env : Env),
        (chatCheck t req chatId env).2
          = .started chatId (req.withRefs.getD false) s.promises.length ∧
        (chatCheck t req chatId env).1.promises
          = s.promises ++ [(sendPrompt env.prompt (req.prompt.getD "")
              (lookupModel env.proto (req.model.getD "default"))).2] ∧
        Event.sendPrompt (req.prompt.getD "") (lookupModel env.proto (req.model.getD "default"))
          ∈ (chatCheck t req chatId env).1.events := by
    intro t hp hm req env
    have hh : t.ongoingRequests.has chatId = false := by
      rw [hm]; exact JsMap.has_delete_self _ _
    simp [chatCheck, hh, hp]
  rcases hdone with ⟨fullResult, hs⟩ | ⟨hne, e, hs⟩
  · have hset : chatSettle s (.started chatId withRefs p)
        = (⟨s.ongoingRequests.delete chatId, s.promises,
            s.events ++ [.mapDelete chatId,
              .respond ⟨200, .json (startedBody chatId withRefs fullResult)⟩]⟩,
            some ⟨200, .json (startedBody chatId withRefs fullResult)⟩) := by
      simp only [chatSettle, hs]
    refine ⟨⟨200, .json (startedBody chatId withRefs fullResult)⟩, hset,
      JsMap.has_delete_self _ _, fun c hc => JsMap.get_delete_of_ne _ _ _ hc, ?_⟩
    rw [hset]
    exact hrest _ rfl rfl
  · have ht : truthy (some chatId) = true := (truthy_some chatId).2 hne
    have hset : chatSettle s (.started chatId withRefs p)
        = (⟨s.ongoingRequests.delete chatId, s.promises,
            s.events ++ [.mapDelete chatId,
              .respond ⟨500, .json [("error", .str e.message), ("stack", .str e.stack)]⟩]⟩,
            some ⟨500, .json [("error", .str e.message), ("stack", .str e.stack)]⟩) := by
      simp only [chatSettle, hs, chatCatch, ht, if_true]
    refine ⟨⟨500, .json [("error", .str e.message), ("stack", .str e.stack)]⟩, hset,
      JsMap.has_delete_self _ _, fun c hc => JsMap.get_delete_of_ne _ _ _ hc, ?_⟩
    rw [hset]
    exact hrest _ rfl rfl

/-- The release of the slot of conversation `abc`, its execution registered
from the initial server, once fulfilled (the demo page) and once rejected (the model
name `bogus`). -/
theorem slot_release_witness :
    (∃ r,
      chatSettle (chatCheck Server.initial abcRequest "abc" demoEnv).1 (.started "abc" false 0)
        = (⟨(chatCheck Server.initial abcRequest "abc" demoEnv).1.ongoingRequests.delete "abc",
            (chatCheck Server.initial abcRequest "abc" demoEnv).1.promises,
            (chatCheck Server.initial abcRequest "abc" demoEnv).1.events
              ++ [.mapDelete "abc", .respond r]⟩, some r)) ∧
    (∃ r,
      chatSettle (chatCheck Server.initial bogusRequest "abc" demoEnv).1 (.started "abc" false 0)
        = (⟨(chatCheck Server.initial bogusRequest "abc" demoEnv).1.ongoingRequests.delete "abc",
            (chatCheck Server.initial bogusRequest "abc" demoEnv).1.promises,
            (chatCheck Server.initial bogusRequest "abc" demoEnv).1.events
              ++ [.mapDelete "abc", .respond r]⟩, some r)) :=
  ⟨(slot_release (chatCheck Server.initial abcRequest "abc" demoEnv).1 "abc" false 0
      (Or.inl ⟨⟨"Hi", "1. [Doc](http://x)"⟩, by decide⟩)).imp fun _ h => h.1,
    (slot_release (chatCheck Server.initial bogusRequest "abc" demoEnv).1 "abc" false 0
      (Or.inr ⟨by decide,
        ⟨"Invalid model: undefined. Must be one of hermes-2-theta-web, dogge-llama-3-70b, llama-3.1-405b",
          "Error: at sendPrompt"⟩, by decide⟩)).imp fun _ h => h.1⟩

/-- C3, the code at the failing input: whatever request registered the
execution for conversation `abc` and whenever the sweep runs afterwards, the
map holds the request promise under `abc`, the sweep leaves the map as it is,
the entry is still there, and a request for `abc` after the sweep attaches to
it instead of starting a new execution. -/
theorem stale_promise_entry_survives_sweep (req : ChatRequest) (env : Env) (now : Int) :
    (chatCheck Server.initial req "abc" env).1.ongoingRequests = ⟨[("abc", .promise 0)]⟩ ∧
    cleanupOngoingRequests now (chatCheck Server.initial req "abc" env).1.ongoingRequests
      = ⟨[("abc", .promise 0)]⟩ ∧
    (cleanupOngoingRequests now
      (chatCheck Server.initial req "abc" env).1.ongoingRequests).has "abc" = true ∧
    (chatCheck
      ⟨cleanupOngoingRequests now (chatCheck Server.initial req "abc" env).1.ongoingRequests,
        (chatCheck Server.initial req "abc" env).1.promises, []⟩ req "abc" env).2
      = .attached "abc" (some (.promise 0)) := by
  have h : (chatCheck Server.initial req "abc" env).1.ongoingRequests
      = ⟨[("abc", .promise 0)]⟩ := by
    simp [chatCheck, Server.initial, JsMap.empty, JsMap.has, JsMap.set]
  rw [h]
  refine ⟨rfl, ?_, ?_, ?_⟩
  · simp [cleanupOngoingRequests, isStale, JsValue.toNumber]
  · simp [cleanupOngoingRequests, isStale, JsValue.toNumber, JsMap.has]
  · simp [cleanupOngoingRequests, isStale, JsValue.toNumber, JsMap.has, chatCheck, JsMap.get]

/-- C4, counterexample: a request with a prompt and the model name `bogus`,
on a browser where every step succeeds, is answered with status 500 and the
`Invalid model` message: a server error, not a client error. -/
theorem unknown_model_answered_500 :
    (postChat Server.initial bogusRequest demoEnv).2
      = some ⟨500, .json
          [("error", .str
            "Invalid model: undefined. Must be one of hermes-2-theta-web, dogge-llama-3-70b, llama-3.1-405b"),
           ("stack", .str "Error: at sendPrompt")]⟩ ∧
    (postChat Server.initial bogusRequest demoEnv).2.map Response.isClientError = some false ∧
    (postChat Server.initial bogusRequest demoEnv).2.map Response.isServerError = some true := by
  decide

/-- C4, amended: a request without a prompt (absent or empty) is answered
with status 400 and the text `No prompt provided`. A request with a prompt
whose model name is not one of `default`, `dogge`, `llama3` is answered with
status 500, the body carrying the `Invalid model` message, whenever the
session step succeeded and no request is ongoing for the chat id. -/
theorem invalid_request_status (s : Server) (req : ChatRequest) (env : Env) :
    (truthy req.prompt = false →
      (postChat s req env).2 = some ⟨400, .text "No prompt provided"⟩) ∧
    (∀ (name chatId : String) (page : Page), truthy req.prompt = true →
      req.model = some name → name ∉ models.map Prod.fst →
      (findOrCreateChatSession env.session req.contextId).2 = .resolved (chatId, page) →
      s.ongoingRequests.has chatId = false →
      (postChat s req env).2
        = some ⟨500, .json
            [("error", .str (invalidModelMessage (lookupModel env.proto name))),
             ("stack", .str env.prompt.stack)]⟩) := by
  constructor
  · intro h
    simp [postChat, h]
  · intro name chatId page hp hm hname hsess hhas
    have hk := lookupModel_unknown env.proto name hname
    have hsp := sendPrompt_unknown env.prompt (req.prompt.getD "") _ hk
    simp only [postChat, hp, hsess, chatCheck, hhas, hm, Option.getD_some, hsp]
    simp [chatSettle, chatCatch]
    split <;> rfl

/-- Witness of C4: a request without a prompt, and the `bogus` request on the
demo browser. -/
theorem invalid_request_status_witness :
    (postChat Server.initial ⟨none, none, none, some "bogus"⟩ demoEnv).2
      = some ⟨400, .text "No prompt provided"⟩ ∧
    (postChat Server.initial bogusRequest demoEnv).2
      = some ⟨500, .json
          [("error", .str (invalidModelMessage (lookupModel demoEnv.proto "bogus"))),
           ("stack", .str demoEnv.prompt.stack)]⟩ :=
  ⟨(invalid_request_status Server.initial ⟨none, none, none, some "bogus"⟩ demoEnv).1
      (by decide),
    (invalid_request_status Server.initial bogusRequest demoEnv).2 "bogus" "n1"
      ⟨"https://venice.ai", "/chat/n1", ""⟩ (by decide) rfl (by decide) (by decide)
      (by decide)⟩

/-- C5, counterexample: before the request for the model name `bogus` fails
with the invalid-model error, the handler has listed the tabs, opened a new
tab, navigated it to the chat root, waited for and clicked the new-chat
button and waited for the navigation. -/
theorem unknown_model_after_navigation :
    (postChat Server.initial bogusRequest demoEnv).1.events
      = [.pages, .newPage, .goto "https://venice.ai/chat", .waitForSelector newChatButton,
          .click newChatButton, .waitForNavigation, .closeInactiveTab "n1",
          .sendPrompt "hi" .undefined, .mapSet "n1", .mapDelete "n1",
          .respond ⟨500, .json
            [("error", .str
              "Invalid model: undefined. Must be one of hermes-2-theta-web, dogge-llama-3-70b, llama-3.1-405b"),
             ("stack", .str "Error: at sendPrompt")]⟩] ∧
    Event.newPage ∈ (postChat Server.initial bogusRequest demoEnv).1.events ∧
    Event.goto "https://venice.ai/chat" ∈ (postChat Server.initial bogusRequest demoEnv).1.events ∧
    Event.click newChatButton ∈ (postChat Server.initial bogusRequest demoEnv).1.events := by
  decide

/-- C5, amended: for every model name that is not one of `default`, `dogge`,
`llama3` (an internal identifier and a member of `Object.prototype` included),
`sendPrompt` rejects with the invalid-model error before any call on the page:
its execution makes no browser call at all. In the handler the session step
has run before: when it succeeded and no request is ongoing for the chat id,
the request is answered with the invalid-model error and everything the
handler did after the browser calls of `findOrCreateChatSession` is not a
browser call. -/
theorem invalid_model_before_page_calls (env : Env) (name : String)
    (hname : name ∉ models.map Prod.fst) :
    (∀ prompt, sendPrompt env.prompt prompt (lookupModel env.proto name)
      = ([], .rejected ⟨invalidModelMessage (lookupModel env.proto name), env.prompt.stack⟩)) ∧
    (∀ (s : Server) (req : ChatRequest) (chatId : String) (page : Page),
      truthy req.prompt = true → req.model = some name →
      (findOrCreateChatSession env.session req.contextId).2 = .resolved (chatId, page) →
      s.ongoingRequests.has chatId = false →
      ∃ tail,
        (postChat s req env).1.events
          = s.events ++ (findOrCreateChatSession env.session req.contextId).1 ++ tail ∧
        tail.all (fun e => !e.isBrowser) = true ∧
        (postChat s req env).2
          = some ⟨500, .json
              [("error", .str (invalidModelMessage (lookupModel env.proto name))),
               ("stack", .str env.prompt.stack)]⟩) := by
  have hk := lookupModel_unknown env.proto name hname
  refine ⟨fun prompt => sendPrompt_unknown env.prompt prompt _ hk, ?_⟩
  intro s req chatId page hp hm hsess hhas
  have hsp := sendPrompt_unknown env.prompt (req.prompt.getD "") _ hk
  by_cases ht : truthy (some chatId) = true
  · refine ⟨[.sendPrompt (req.prompt.getD "") (lookupModel env.proto name), .mapSet chatId,
      .mapDelete chatId, .respond ⟨500, .json
        [("error", .str (invalidModelMessage (lookupModel env.proto name))),
         ("stack", .str env.prompt.stack)]⟩], ?_, by simp [Event.isBrowser], ?_⟩
    · simp only [postChat, hp, hsess, chatCheck, hhas, hm, Option.getD_some, hsp]
      simp [chatSettle, chatCatch, ht]
    · simp only [postChat, hp, hsess, chatCheck, hhas, hm, Option.getD_some, hsp]
      simp [chatSettle, chatCatch, ht]
  · refine ⟨[.sendPrompt (req.prompt.getD "") (lookupModel env.proto name), .mapSet chatId,
      .respond ⟨500, .json
        [("error", .str (invalidModelMessage (lookupModel env.proto name))),
         ("stack", .str env.prompt.stack)]⟩], ?_, by simp [Event.isBrowser], ?_⟩
    · simp only [postChat, hp, hsess, chatCheck, hhas, hm, Option.getD_some, hsp]
      simp [chatSettle, chatCatch, ht]
    · simp only [postChat, hp, hsess, chatCheck, hhas, hm, Option.getD_some, hsp]
      simp [chatSettle, chatCatch, ht]

/-- Witness of C5: the model names `bogus`, `hermes-2-theta-web` and
`constructor` on the demo page, and the `bogus` request on the demo browser. -/
theorem invalid_model_before_page_calls_witness :
    sendPrompt demoEnv.prompt "hi" (lookupModel demoEnv.proto "bogus")
      = ([], .rejected ⟨invalidModelMessage (lookupModel demoEnv.proto "bogus"),
          demoEnv.prompt.stack⟩) ∧
    sendPrompt demoEnv.prompt "hi" (lookupModel demoEnv.proto "hermes-2-theta-web")
      = ([], .rejected ⟨invalidModelMessage (lookupModel demoEnv.proto "hermes-2-theta-web"),
          demoEnv.prompt.stack⟩) ∧
    sendPrompt demoEnv.prompt "hi" (lookupModel demoEnv.proto "constructor")
      = ([], .rejected ⟨invalidModelMessage (lookupModel demoEnv.proto "constructor"),
          demoEnv.prompt.stack⟩) ∧
    ∃ tail,
      (postChat Server.initial bogusRequest demoEnv).1.events
        = Server.initial.events
          ++ (findOrCreateChatSession demoEnv.session bogusRequest.contextId).1 ++ tail ∧
      tail.all (fun e => !e.isBrowser) = true ∧
      (postChat Server.initial bogusRequest demoEnv).2
        = some ⟨500, .json
            [("error", .str (invalidModelMessage (lookupModel demoEnv.proto "bogus"))),
             ("stack", .str demoEnv.prompt.stack)]⟩ :=
  ⟨(invalid_model_before_page_calls demoEnv "bogus" (by decide)).1 "hi",
    (invalid_model_before_page_calls demoEnv "hermes-2-theta-web" (by decide)).1 "hi",
    (invalid_model_before_page_calls demoEnv "constructor" (by decide)).1 "hi",
    (invalid_model_before_page_calls demoEnv "bogus" (by decide)).2 Server.initial bogusRequest
      "n1" ⟨"https://venice.ai", "/chat/n1", ""⟩ (by decide) rfl (by decide) (by decide)⟩

/-- C6, the code at the failing input: while the execution for conversation
`abc` is registered, a second request for `abc` (without `withRefs`) is
answered 200 with the top-level fields `chatId` and `result`, the result
object nested under `result` with its references; there is no top-level
`response`. The request that started the execution gets `chatId` and
`response`, and `references` too exactly when it asked `withRefs`. -/
theorem attached_body_has_no_response_field :
    (postChat (chatCheck Server.initial abcRequest "abc" demoEnv).1 abcRequest demoEnv).2
      = some ⟨200, .json [("chatId", .str "abc"),
          ("result", .obj [("response", "Hi"), ("references", "1. [Doc](http://x)")])]⟩ ∧
    (postChat (chatCheck Server.initial abcRequest "abc" demoEnv).1 abcRequest
      demoEnv).2.map Response.keys = some ["chatId", "result"] ∧
    (chatSettle (chatCheck Server.initial abcRequest "abc" demoEnv).1
      (chatCheck Server.initial abcRequest "abc" demoEnv).2).2.map Response.keys
        = some ["chatId", "response"] ∧
    (chatSettle (chatCheck Server.initial ⟨some "hi", some "abc", some true, none⟩ "abc"
        demoEnv).1
      (chatCheck Server.initial ⟨some "hi", some "abc", some true, none⟩ "abc"
        demoEnv).2).2.map Response.keys
        = some ["chatId", "response", "references"] := by
  decide

/-- C7: the string `references.map(...).join("\n")` of `sendPrompt` is, for
every reference list, the lines `number. [text](url)` of the references in
order with a single newline between two lines and none after the last; the
empty list gives the empty string and the list of the one reference
`1`, `Doc`, `http://x` gives `1. [Doc](http://x)`. The transform step returns
it: on an extracted list it fulfils with that string as `references` unless
Turndown throws. And `sendPrompt` returns it: an execution that reaches the
extraction script, extracts the list `refs` and has its content converted by
Turndown fulfils with `references` equal to that string for `refs`; and
whenever `sendPrompt` fulfils, the extraction returned a reference list and
the `references` of the result is that string for that list. -/
theorem references_rendering :
    (∀ refs : List Reference, referencesMarkdown refs = referenceLines refs) ∧
    referencesMarkdown [] = "" ∧
    referencesMarkdown [⟨"1", "Doc", "http://x"⟩] = "1. [Doc](http://x)" ∧
    (∀ (env : PromptEnv) (content : Option String) (refs : List Reference),
      transform env ⟨content, some refs⟩
        = match env.turndown content with
          | .error e => .rejected e
          | .ok markdown => .resolved ⟨jsTrim markdown, referenceLines refs⟩) ∧
    (∀ (env : PromptEnv) (prompt : String) (model : ModelValue) (content : Option String)
      (refs : List Reference) (markdown : String),
      Event.evaluate .extract ∈ (sendPrompt env prompt model).1 →
      extract env.typeError env.assistantDivs = .ok ⟨content, some refs⟩ →
      env.turndown content = .ok markdown →
      (sendPrompt env prompt model).2 = .resolved ⟨jsTrim markdown, referenceLines refs⟩) ∧
    (∀ (env : PromptEnv) (prompt : String) (model : ModelValue) (r : PromptResult),
      (sendPrompt env prompt model).2 = .resolved r →
      ∃ x refs, extract env.typeError env.assistantDivs = .ok x ∧ x.references = some refs ∧
        r.references = referenceLines refs) := by
  refine ⟨referencesMarkdown_eq_lines, by decide, by decide, ?_, ?_, ?_⟩
  · intro env content refs
    unfold transform
    cases env.turndown content with
    | error e => rfl
    | ok markdown => simp only [referencesMarkdown_eq_lines]
  · intro env prompt model content refs markdown hreach hx ht
    rw [sendPrompt_reach_extract env prompt model hreach, hx]
    simp only [transform, ht, referencesMarkdown_eq_lines]
  · intro env prompt model r h
    obtain ⟨x, refs, h1, h2, h3⟩ := sendPrompt_references env prompt model r h
    exact ⟨x, refs, h1, h2, by rw [h3, referencesMarkdown_eq_lines]⟩

/-- Witness of C7: the demo page, whose last assistant message has one
citation: `sendPrompt` fulfils with the rendered reference. -/
theorem references_rendering_witness :
    (sendPrompt demoPage "hi" (.str "hermes-2-theta-web")).2
      = .resolved ⟨jsTrim "Hi", referenceLines [⟨"1", "Doc", "http://x"⟩]⟩ ∧
    ∃ x refs, extract demoPage.typeError demoPage.assistantDivs = .ok x ∧
      x.references = some refs ∧
      (PromptResult.mk "Hi" "1. [Doc](http://x)").references = referenceLines refs :=
  ⟨references_rendering.2.2.2.2.1 demoPage "hi" (.str "hermes-2-theta-web") (some "<p>Hi</p>")
      [⟨"1", "Doc", "http://x"⟩] "Hi" (by decide) rfl rfl,
    references_rendering.2.2.2.2.2 demoPage "hi" (.str "hermes-2-theta-web")
      ⟨"Hi", "1. [Doc](http://x)"⟩ (by decide)⟩

/-- C8, the code on a document without assistant message: the extraction
script returns `null` for the content and `null` for the references, and the
transform step that follows rejects, whatever Turndown does with `null`; on
the demo page with no assistant message `sendPrompt` rejects. -/
theorem no_assistant_message_rejects (env : PromptEnv) :
    extract env.typeError [] = .ok ⟨none, none⟩ ∧
    (∃ e, transform env ⟨none, none⟩ = .rejected e) ∧
    (sendPrompt { demoPage with assistantDivs := [] } "hi" (.str "hermes-2-theta-web")).2
      = .rejected ⟨"null is not a string, or an element/document/fragment node.",
          "TypeError"⟩ ∧
    (sendPrompt { demoPage with assistantDivs := [], turndown := fun _ => .ok "" } "hi"
        (.str "hermes-2-theta-web")).2
      = .rejected demoPage.typeError := by
  refine ⟨rfl, ?_, by decide, by decide⟩
  unfold transform
  cases h : env.turndown none with
  | error e => exact ⟨e, by simp⟩
  | ok m => exact ⟨env.typeError, by simp⟩

/-- C9: in every execution of `sendPrompt`, (1) if the value read back from
the textarea differs from the prompt, the execution rejects with the
prompt-entry error; (2) unless the read-back gave exactly the prompt, no
response listener is registered and the send button is not clicked; (3) the
send button is clicked only when the read-back gave exactly the prompt. -/
theorem prompt_entry_guard (env : PromptEnv) (prompt : String) (model : ModelValue) :
    (∀ v, env.enteredText = .ok v → v ≠ prompt →
      Event.evaluate .readValue ∈ (sendPrompt env prompt model).1 →
      (sendPrompt env prompt model).2
        = .rejected ⟨"Prompt was not correctly entered into the textarea", env.stack⟩) ∧
    (env.enteredText ≠ .ok prompt →
      Event.onResponse ∉ (sendPrompt env prompt model).1 ∧
      Event.click sendButtonSelector ∉ (sendPrompt env prompt model).1) ∧
    (Event.click sendButtonSelector ∈ (sendPrompt env prompt model).1 →
      env.enteredText = .ok prompt) := by
  have hno : env.enteredText ≠ .ok prompt →
      Event.onResponse ∉ (sendPrompt env prompt model).1 ∧
      Event.click sendButtonSelector ∉ (sendPrompt env prompt model).1 := by
    intro h
    have he := enterPrompt_no_submit env prompt h
    have h1 := sendButton_ne_dropdown
    have h2 := sendButton_ne_option model.show
    constructor
    · intro hmem
      rcases sendPrompt_mem env prompt model _ hmem with hpre | ⟨_, hin, _⟩
      · simp at hpre
      · exact he.1 hin
    · intro hmem
      rcases sendPrompt_mem env prompt model _ hmem with hpre | ⟨_, hin, _⟩
      · simp [h1, h2] at hpre
      · exact he.2 hin
  refine ⟨?_, hno, ?_⟩
  · intro v hv hne hread
    rcases sendPrompt_mem env prompt model _ hread with hpre | ⟨_, hin, heq⟩
    · simp at hpre
    · rw [heq]
      exact enterPrompt_mismatch env prompt v hv hne hin
  · intro hclick
    by_contra hne
    exact (hno hne).2 hclick

/-- Witness of C9: the demo page, where the textarea reads `hi`, with the
prompt `hix` (mismatch) and with the prompt `hi` (the send button is clicked). -/
theorem prompt_entry_guard_witness :
    (sendPrompt demoPage "hix" (.str "hermes-2-theta-web")).2
      = .rejected ⟨"Prompt was not correctly entered into the textarea", demoPage.stack⟩ ∧
    (Event.onResponse ∉ (sendPrompt demoPage "hix" (.str "hermes-2-theta-web")).1 ∧
      Event.click sendButtonSelector ∉ (sendPrompt demoPage "hix" (.str "hermes-2-theta-web")).1) ∧
    demoPage.enteredText = .ok "hi" :=
  ⟨(prompt_entry_guard demoPage "hix" (.str "hermes-2-theta-web")).1 "hi" rfl (by decide)
      (by decide),
    (prompt_entry_guard demoPage "hix" (.str "hermes-2-theta-web")).2.1
      (fun h => absurd (Except.ok.inj h) (by decide)),
    (prompt_entry_guard demoPage "hi" (.str "hermes-2-theta-web")).2.2 (by decide)⟩

/-- C10, the code at the failing input: with a tab open on
`https://venice.ai/chat/abc`, the context id `bc` reuses that tab (the tabs
are listed and the tab is brought to front, nothing else) and `bc` is returned
as chat id, while the final path segment of the tab is `abc`. -/
theorem suffix_context_reuses_other_conversation :
    findOrCreateChatSession demoSession (some "bc")
      = ([.pages, .bringToFront "https://venice.ai/chat/abc"],
          .resolved ("bc", ⟨"https://venice.ai", "/chat/abc", ""⟩)) ∧
    lastSegment (Page.mk "https://venice.ai" "/chat/abc" "").pathname = "abc" ∧
    lastSegment (Page.mk "https://venice.ai" "/chat/abc" "").pathname ≠ "bc" := by
  decide

end Ven
